import Mathlib

/-!
Verification of the EZ-Diffusion simulate-and-recover repository.

The Python sources are embedded shallowly over the real numbers:
float arithmetic becomes exact real arithmetic, a `raise` of an
exception becomes `none` (or `Except.error`), and randomness is made
explicit by passing the drawn values as arguments.

Source files embedded:
  - src/src/ez_diffusion.py   (class EZDiffusion)
  - src/src/simulate.py       (class SimulationRunner)
-/

open Real

/-- The `EZDiffusion` model object of src/src/ez_diffusion.py: the
constructor stores non-decision time `T_er`, boundary separation `a`
and relative starting point `z` as attributes. -/
structure EZDiffusion where
  T_er : ℝ
  a : ℝ
  z : ℝ

/-- Embedding of `EZDiffusion.__init__` (ez_diffusion.py lines 11-34):
raises `ValueError` (here `none`) when `T_er < 0`, when `a <= 0`, or
when `z` is not strictly between 0 and 1, and otherwise stores the
three attributes unchanged. The Python guard `not 0 < z < 1` is
rendered as the positive condition on the success branch. -/
noncomputable def EZDiffusion.init (T_er a z : ℝ) : Option EZDiffusion :=
  if T_er < 0 then none
  else if a ≤ 0 then none
  else if 0 < z ∧ z < 1 then some ⟨T_er, a, z⟩
  else none

/-- Embedding of `EZDiffusion.forward_equations` (ez_diffusion.py lines
144-179). Raises `ValueError` (here `none`) when `nu = 0`; otherwise
returns, in source order, the triple `(mrt, vrt, pc)` with
`mrt = T_er + a / (2 * |nu|)`,
`vrt = a ^ 2 / nu ^ 2 * z * (1 - z)` and
`pc = 1 / (1 + exp (-2 * nu * a * z))`. -/
noncomputable def EZDiffusion.forward_equations (m : EZDiffusion) (nu : ℝ) :
    Option (ℝ × ℝ × ℝ) :=
  if nu = 0 then none
  else
    some (m.T_er + m.a / (2 * |nu|),
          m.a ^ 2 / nu ^ 2 * m.z * (1 - m.z),
          1 / (1 + Real.exp (-2 * nu * m.a * m.z)))

/-- Embedding of `EZDiffusion.inverse_equations` (ez_diffusion.py lines
181-223). Validation: `pc` must lie strictly between 0 and 1 and `vrt`
must be positive (a `ValueError`, here `none`, otherwise). It then
computes `logit_pc = log (pc / (1 - pc))` and returns a SINGLE drift
estimate: `a * logit_pc / (2 * z * a ^ 2)` when `z = 1/2`, and
`logit_pc / (2 * a * z)` otherwise. The argument `mrt` is validated
nowhere and used nowhere (the local `dt_mean` of the source is dead);
no boundary or non-decision estimate is produced. The Python guard
`not 0 < pc < 1` is rendered as the positive condition. -/
noncomputable def EZDiffusion.inverse_equations (m : EZDiffusion)
    (mrt vrt pc : ℝ) : Option ℝ :=
  if 0 < pc ∧ pc < 1 then
    if vrt ≤ 0 then none
    else
      let logit_pc := Real.log (pc / (1 - pc))
      if m.z = 1/2 then some (m.a * logit_pc / (2 * m.z * m.a ^ 2))
      else some (logit_pc / (2 * m.a * m.z))
  else none

/-- Modelled from the spec: the three-parameter forward operation
`forward(drift, boundary, nondecision)` of spec sections 4.1 and 6.
It is absent from src: src/src/simulate.py line 49 calls
`self.ez_diffusion.forward(nu, alpha, tau)` and the tests call
`forward_accuracy` / `forward_mean_rt` / `forward_variance_rt`, but no
such method is defined under src/. Following section 4.1, with
`y = exp (-(nu * a))`: accuracy `R = 1 / (1 + y)`, mean rt
`M = tau + a / (2 * nu) * ((1 - y) / (1 + y))`, variance
`V = a / (2 * nu ^ 3) * ((1 - 2 * a * nu * y - y ^ 2) / (1 + y) ^ 2)`;
it fails on `drift = 0` or `boundary <= 0`. -/
noncomputable def forward (nu a tau : ℝ) : Option (ℝ × ℝ × ℝ) :=
  if nu = 0 ∨ a ≤ 0 then none
  else
    let y := Real.exp (-(nu * a))
    some (1 / (1 + y),
          tau + a / (2 * nu) * ((1 - y) / (1 + y)),
          a / (2 * nu ^ 3) * ((1 - 2 * a * nu * y - y ^ 2) / (1 + y) ^ 2))

/-- Modelled from the spec: the clamp of spec section 4.3 step 1,
replacing an accuracy at or below 0 by a small constant margin and an
accuracy at or above 1 by one minus that margin (the documented
constant clamp margin is 1/100000). -/
noncomputable def clampAccuracy (R : ℝ) : ℝ :=
  if R ≤ 0 then 1/100000
  else if 1 ≤ R then 1 - 1/100000
  else R

/-- Modelled from the spec: the three-parameter inverse operation
`recover(accuracy, mean_rt, variance_rt)` of spec sections 4.3 and 6.
It is absent from src: src/src/simulate.py line 56 calls
`self.ez_diffusion.inverse(R_obs, M_obs, V_obs)` expecting a triple and
the tests call `recover_parameters`, but no such method is defined
under src/ (the `inverse_equations` of src returns a drift estimate
only). Following section 4.3 with the Wagenmakers closed form endorsed
by section 9 (scaling s = 1): non-positive variance is rejected before
the logit is taken; the logit `L` of the clamped accuracy is formed; a
zero drift (`L = 0`) is a degenerate failure; otherwise the drift is
`sign (R - 1/2) * (L * (R ^ 2 * L - R * L + R - 1/2) / V) ^ (1/4)`,
the boundary is `L / drift`, and the non-decision time is the observed
mean rt minus the mean decision time of the forward model at the
recovered drift and boundary. -/
noncomputable def recover (R M V : ℝ) : Option (ℝ × ℝ × ℝ) :=
  if V ≤ 0 then none
  else
    let Rc := clampAccuracy R
    let L := Real.log (Rc / (1 - Rc))
    if L = 0 then none
    else
      let nu_est := (if 1/2 < Rc then (1 : ℝ) else -1) *
        (L * (Rc ^ 2 * L - Rc * L + Rc - 1/2) / V) ^ ((4 : ℕ) : ℝ)⁻¹
      let a_est := L / nu_est
      let y := Real.exp (-(nu_est * a_est))
      some (nu_est, a_est, M - a_est / (2 * nu_est) * ((1 - y) / (1 + y)))

/-- One result record of `SimulationRunner.simulate_and_recover`
(simulate.py lines 35-91): a success record carries the true
parameters, the estimates, the biases and the squared errors; a
failure record carries ONLY the true parameters and the error reason
(the Python failure dict has no estimate keys at all). -/
inductive TrialRecord where
  | success (true_nu true_alpha true_tau est_nu est_alpha est_tau
      bias_nu bias_alpha bias_tau se_nu se_alpha se_tau : ℝ)
  | failure (true_nu true_alpha true_tau : ℝ) (error : String)

/-- The `success` key of a record: `true` exactly on success records. -/
def TrialRecord.isSuccess : TrialRecord → Bool
  | .success _ _ _ _ _ _ _ _ _ _ _ _ => true
  | .failure _ _ _ _ => false

/-- The `bias_nu` key (read only on success records by the source). -/
noncomputable def TrialRecord.bias_nu : TrialRecord → ℝ
  | .success _ _ _ _ _ _ b _ _ _ _ _ => b
  | .failure _ _ _ _ => 0

/-- The `bias_alpha` key (read only on success records by the source). -/
noncomputable def TrialRecord.bias_alpha : TrialRecord → ℝ
  | .success _ _ _ _ _ _ _ b _ _ _ _ => b
  | .failure _ _ _ _ => 0

/-- The `bias_tau` key (read only on success records by the source). -/
noncomputable def TrialRecord.bias_tau : TrialRecord → ℝ
  | .success _ _ _ _ _ _ _ _ b _ _ _ => b
  | .failure _ _ _ _ => 0

/-- The `se_nu` key (read only on success records by the source). -/
noncomputable def TrialRecord.se_nu : TrialRecord → ℝ
  | .success _ _ _ _ _ _ _ _ _ s _ _ => s
  | .failure _ _ _ _ => 0

/-- The `se_alpha` key (read only on success records by the source). -/
noncomputable def TrialRecord.se_alpha : TrialRecord → ℝ
  | .success _ _ _ _ _ _ _ _ _ _ s _ => s
  | .failure _ _ _ _ => 0

/-- The `se_tau` key (read only on success records by the source). -/
noncomputable def TrialRecord.se_tau : TrialRecord → ℝ
  | .success _ _ _ _ _ _ _ _ _ _ _ s => s
  | .failure _ _ _ _ => 0

/-- The randomness consumed by one iteration of
`SimulationRunner.simulate_and_recover`, made explicit: the true
parameters drawn by `generate_true_parameters` (simulate.py lines
21-33) and the observed statistics drawn by the (missing)
`generate_observed_statistics` sampler from the forward prediction. -/
structure Draw where
  nu : ℝ
  alpha : ℝ
  tau : ℝ
  R_obs : ℝ
  M_obs : ℝ
  V_obs : ℝ

/-- Embedding of the recovery step of
`SimulationRunner.simulate_and_recover` (simulate.py lines 54-91): the
inverse call (a method absent from src, passed here as the function
`inv`, returning `Except.error` where the source raises) is wrapped in
try/except; on success the record carries estimates, biases
`true - est` and squared errors `bias ^ 2`; on a caught exception the
failure record carries the true parameters and the reason only. -/
noncomputable def simulate_and_recover
    (inv : ℝ → ℝ → ℝ → Except String (ℝ × ℝ × ℝ))
    (nu alpha tau R_obs M_obs V_obs : ℝ) : TrialRecord :=
  match inv R_obs M_obs V_obs with
  | Except.ok (nu_est, alpha_est, tau_est) =>
      TrialRecord.success nu alpha tau nu_est alpha_est tau_est
        (nu - nu_est) (alpha - alpha_est) (tau - tau_est)
        ((nu - nu_est) ^ 2) ((alpha - alpha_est) ^ 2) ((tau - tau_est) ^ 2)
  | Except.error e => TrialRecord.failure nu alpha tau e

/-- One step of the iteration loop of `SimulationRunner.run_simulations`
(simulate.py lines 107-115): append the iteration result to
`N_results` and increment `successful_iterations` when it succeeded. -/
noncomputable def run_step (inv : ℝ → ℝ → ℝ → Except String (ℝ × ℝ × ℝ))
    (acc : List TrialRecord × ℕ) (d : Draw) : List TrialRecord × ℕ :=
  let r := simulate_and_recover inv d.nu d.alpha d.tau d.R_obs d.M_obs d.V_obs
  (acc.1 ++ [r], acc.2 + (if r.isSuccess then 1 else 0))

/-- Embedding of the inner loop of `SimulationRunner.run_simulations`
(simulate.py lines 102-118) for one sample size: starting from an
empty result list and a zero success counter, run one iteration per
draw. Returns `(N_results, successful_iterations)`. -/
noncomputable def run_simulations_for
    (inv : ℝ → ℝ → ℝ → Except String (ℝ × ℝ × ℝ))
    (draws : List Draw) : List TrialRecord × ℕ :=
  draws.foldl (run_step inv) ([], 0)

/-- Embedding of the outer loop of `SimulationRunner.run_simulations`
(simulate.py lines 100-120): one inner run per configured sample size
(the randomness of each sample size is its own list of draws). -/
noncomputable def run_simulations
    (inv : ℝ → ℝ → ℝ → Except String (ℝ × ℝ × ℝ))
    (drawss : List (List Draw)) : List (List TrialRecord × ℕ) :=
  drawss.map (run_simulations_for inv)

/-- The success rate printed by `SimulationRunner.run_simulations`
(simulate.py line 117): `successful_iterations / self.n_iterations`,
where the number of iterations attempted is the number of draws. -/
noncomputable def success_rate
    (inv : ℝ → ℝ → ℝ → Except String (ℝ × ℝ × ℝ))
    (draws : List Draw) : ℝ :=
  ((run_simulations_for inv draws).2 : ℝ) / (draws.length : ℝ)

/-- `np.mean` of a list of reals. -/
noncomputable def listMean (l : List ℝ) : ℝ := l.sum / l.length

/-- `np.std` of a list of reals (population standard deviation). -/
noncomputable def listStd (l : List ℝ) : ℝ :=
  Real.sqrt (listMean (l.map (fun x => (x - listMean l) ^ 2)))

/-- The per-sample-size summary built by
`SimulationRunner.analyze_results` (simulate.py lines 164-175). -/
structure SummaryN where
  n_successful : ℕ
  bias_nu : ℝ
  bias_alpha : ℝ
  bias_tau : ℝ
  se_nu : ℝ
  se_alpha : ℝ
  se_tau : ℝ
  std_bias_nu : ℝ
  std_bias_alpha : ℝ
  std_bias_tau : ℝ

/-- Embedding of the body of `SimulationRunner.analyze_results`
(simulate.py lines 122-177) for one sample size: filter the successful
records, skip the sample size entirely (`continue`, here `none`) when
none succeeded, and otherwise average bias and squared error per
parameter over the successful records only, together with the standard
error of each bias. -/
noncomputable def analyze_results_for (records : List TrialRecord) :
    Option SummaryN :=
  let successful := records.filter TrialRecord.isSuccess
  if successful.length = 0 then none
  else
    some { n_successful := successful.length
           bias_nu := listMean (successful.map TrialRecord.bias_nu)
           bias_alpha := listMean (successful.map TrialRecord.bias_alpha)
           bias_tau := listMean (successful.map TrialRecord.bias_tau)
           se_nu := listMean (successful.map TrialRecord.se_nu)
           se_alpha := listMean (successful.map TrialRecord.se_alpha)
           se_tau := listMean (successful.map TrialRecord.se_tau)
           std_bias_nu := listStd (successful.map TrialRecord.bias_nu) /
             Real.sqrt successful.length
           std_bias_alpha := listStd (successful.map TrialRecord.bias_alpha) /
             Real.sqrt successful.length
           std_bias_tau := listStd (successful.map TrialRecord.bias_tau) /
             Real.sqrt successful.length }

/-- C8: for all valid inputs (non-negative non-decision time, positive
boundary, starting point strictly inside (0,1) as the constructor
guarantees, and drift distinct from 0), `forward_equations` returns a
triple whose accuracy lies strictly in (0,1) and whose mean and
variance of rt are positive. -/
theorem C8_forward_range_invariants (m : EZDiffusion) (nu : ℝ)
    (hT : 0 ≤ m.T_er) (ha : 0 < m.a) (hz0 : 0 < m.z) (hz1 : m.z < 1)
    (hnu : nu ≠ 0) :
    ∃ mrt vrt pc, m.forward_equations nu = some (mrt, vrt, pc) ∧
      0 < pc ∧ pc < 1 ∧ 0 < mrt ∧ 0 < vrt := by
  have habs : 0 < |nu| := abs_pos.mpr hnu
  have he : 0 < Real.exp (-2 * nu * m.a * m.z) := Real.exp_pos _
  have hnu2 : 0 < nu ^ 2 := by positivity
  have h1z : 0 < 1 - m.z := by linarith
  refine ⟨m.T_er + m.a / (2 * |nu|), m.a ^ 2 / nu ^ 2 * m.z * (1 - m.z),
    1 / (1 + Real.exp (-2 * nu * m.a * m.z)),
    by rw [EZDiffusion.forward_equations, if_neg hnu], ?_, ?_, ?_, ?_⟩
  · positivity
  · rw [div_lt_one (by linarith)]
    linarith
  · have : 0 < m.a / (2 * |nu|) := by positivity
    linarith
  · positivity

/-- Witness for C8 at the model `(T_er, a, z) = (3/10, 1, 1/2)` and
drift 1. -/
theorem C8_forward_range_witness :
    ∃ mrt vrt pc,
      EZDiffusion.forward_equations ⟨3/10, 1, 1/2⟩ 1 = some (mrt, vrt, pc) ∧
      0 < pc ∧ pc < 1 ∧ 0 < mrt ∧ 0 < vrt :=
  C8_forward_range_invariants ⟨3/10, 1, 1/2⟩ 1 (by norm_num) (by norm_num)
    (by norm_num) (by norm_num) (by norm_num)

/-- C9: `forward_equations` with drift 0 fails immediately
(`ValueError`, embedded as `none`), and constructing the model with a
non-positive boundary fails immediately; in neither case is a numeric
result returned or a substitute value used. -/
theorem C9_invalid_parameter_rejection :
    (∀ (m : EZDiffusion) (nu : ℝ), nu = 0 →
      m.forward_equations nu = none) ∧
    (∀ T_er a z : ℝ, a ≤ 0 → EZDiffusion.init T_er a z = none) := by
  constructor
  · intro m nu h
    rw [EZDiffusion.forward_equations, if_pos h]
  · intro T_er a z ha
    simp [EZDiffusion.init, ha]

/-- Witness for C9: drift 0 on a valid model, and construction with
boundary -1. -/
theorem C9_invalid_parameter_witness :
    EZDiffusion.forward_equations ⟨3/10, 1, 1/2⟩ 0 = none ∧
    EZDiffusion.init (3/10) (-1) (1/2) = none :=
  ⟨C9_invalid_parameter_rejection.1 ⟨3/10, 1, 1/2⟩ 0 rfl,
   C9_invalid_parameter_rejection.2 (3/10) (-1) (1/2) (by norm_num)⟩

/-- C10: construction with `T_er < 0`, `a <= 0` or `z` outside the open
unit interval raises `ValueError` (embedded as `none`); a successful
construction stores the attributes unchanged and they satisfy
`0 <= T_er`, `0 < a` and `0 < z < 1`. In the embedding the attributes
of a constructed instance are immutable by construction, matching the
source, whose methods never reassign them, so every method runs under
this invariant. -/
theorem C10_constructor_invariant (T_er a z : ℝ) :
    ((T_er < 0 ∨ a ≤ 0 ∨ ¬(0 < z ∧ z < 1)) →
      EZDiffusion.init T_er a z = none) ∧
    (∀ m : EZDiffusion, EZDiffusion.init T_er a z = some m →
      m.T_er = T_er ∧ m.a = a ∧ m.z = z ∧
      0 ≤ m.T_er ∧ 0 < m.a ∧ 0 < m.z ∧ m.z < 1) := by
  constructor
  · intro h
    rw [EZDiffusion.init]
    split_ifs with h1 h2 h3 <;> first | rfl | tauto
  · intro m hm
    rw [EZDiffusion.init] at hm
    split_ifs at hm with h1 h2 h3
    all_goals first
      | exact Option.noConfusion hm
      | (obtain rfl : (⟨T_er, a, z⟩ : EZDiffusion) = m := Option.some.inj hm
         exact ⟨rfl, rfl, rfl, not_lt.mp h1, not_le.mp h2, h3.1, h3.2⟩)

/-- Witness for C10: rejection at `z = 0`, and the invariant of the
instance constructed from `(3/10, 1, 1/2)`. -/
theorem C10_constructor_witness :
    EZDiffusion.init (3/10) 1 0 = none ∧
    ((⟨3/10, 1, 1/2⟩ : EZDiffusion).T_er = 3/10 ∧
     (⟨3/10, 1, 1/2⟩ : EZDiffusion).a = 1 ∧
     (⟨3/10, 1, 1/2⟩ : EZDiffusion).z = 1/2 ∧
     0 ≤ (⟨3/10, 1, 1/2⟩ : EZDiffusion).T_er ∧
     0 < (⟨3/10, 1, 1/2⟩ : EZDiffusion).a ∧
     0 < (⟨3/10, 1, 1/2⟩ : EZDiffusion).z ∧
     (⟨3/10, 1, 1/2⟩ : EZDiffusion).z < 1) :=
  ⟨(C10_constructor_invariant (3/10) 1 0).1 (Or.inr (Or.inr (by norm_num))),
   (C10_constructor_invariant (3/10) 1 (1/2)).2 ⟨3/10, 1, 1/2⟩
     (by norm_num [EZDiffusion.init])⟩

/-- C5 counterexample: at the exact input of the claim (accuracy 1/2,
mean rt 1/2, variance 1/10, on the model with default starting point
1/2) `inverse_equations` does NOT fail: it returns the numeric drift
estimate 0, refuting the claim that a degeneracy failure is signalled
and that a numeric estimate such as zero drift is never returned. -/
theorem C5_accuracy_half_counterexample :
    EZDiffusion.inverse_equations ⟨3/10, 1, 1/2⟩ (1/2) (1/10) (1/2) =
      some 0 := by
  norm_num [EZDiffusion.inverse_equations, Real.log_one]

/-- C5 amended: calling `inverse_equations` with accuracy exactly 1/2
(and any positive variance) passes validation, computes
`logit = log 1 = 0`, and returns the numeric drift estimate 0 in both
starting-point branches; no failure is signalled and no NaN arises. -/
theorem C5_accuracy_half_amended (m : EZDiffusion) (mrt vrt : ℝ)
    (hv : 0 < vrt) :
    m.inverse_equations mrt vrt (1/2) = some 0 := by
  have h1 : ¬(vrt ≤ 0) := not_le.mpr hv
  by_cases hz : m.z = 1/2 <;>
    norm_num [EZDiffusion.inverse_equations, h1, hz, Real.log_one]

/-- Witness for C5 amended at the input named by the claim. -/
theorem C5_accuracy_half_witness :
    EZDiffusion.inverse_equations ⟨3/10, 1, 1/2⟩ (1/2) (1/10) (1/2) =
      some 0 :=
  C5_accuracy_half_amended ⟨3/10, 1, 1/2⟩ (1/2) (1/10) (by norm_num)

/-- C6 counterexample: at accuracy exactly 1 (a valid mean rt and
variance alongside), `inverse_equations` returns `none` (the source
raises `ValueError`): the endpoint is rejected, not clamped to an
interior value, and recovery does not proceed, refuting the claim. -/
theorem C6_endpoint_clamp_counterexample :
    EZDiffusion.inverse_equations ⟨3/10, 1, 1/2⟩ (1/2) (1/10) 1 = none := by
  norm_num [EZDiffusion.inverse_equations]

/-- C6 amended: accuracy exactly 0 or exactly 1 is rejected by the
validation guard of `inverse_equations` (a `ValueError`, embedded as
`none`), for every model and every mean rt and variance; no clamping
is performed and recovery never proceeds on these endpoints. -/
theorem C6_endpoint_reject_amended (m : EZDiffusion) (mrt vrt : ℝ) :
    m.inverse_equations mrt vrt 0 = none ∧
    m.inverse_equations mrt vrt 1 = none := by
  constructor <;> norm_num [EZDiffusion.inverse_equations]

/-- C3: concrete evaluation showing the shape of the recovery output of
the source: on the valid observation (mean rt 4/5, variance 1/4,
accuracy 3/4) the model `(3/10, 1, 1/2)` returns the SINGLE scalar
drift estimate `log 3`; no boundary estimate and no non-decision
estimate exist in the return value (its type is one real, not three),
while the caller `simulate_and_recover` (simulate.py line 56) unpacks
three values from this call. -/
theorem C3_inverse_returns_drift_only :
    EZDiffusion.inverse_equations ⟨3/10, 1, 1/2⟩ (4/5) (1/4) (3/4) =
      some (Real.log 3) := by
  norm_num [EZDiffusion.inverse_equations]

/-- C2 counterexample: at drift 1 on the model `(tau, a, z) =
(3/10, 1, 1/2)`, `forward_equations` returns mean rt 4/5 and variance
1/4, while the closed forms of spec section 4.1 (with
`y = exp (-nu * a) = exp (-1)`) give mean rt
`3/10 + (1/2) * ((1 - y) / (1 + y))` and variance
`(1/2) * ((1 - 2 * y - y ^ 2) / (1 + y) ^ 2)`; both differ from the
code values, refuting the claim that the forward operation returns
exactly the section 4.1 forms. -/
theorem C2_forward_closed_forms_counterexample :
    EZDiffusion.forward_equations ⟨3/10, 1, 1/2⟩ 1 =
      some (4/5, 1/4, 1 / (1 + Real.exp (-1))) ∧
    (4/5 : ℝ) ≠ 3/10 + 1 / (2 * 1) *
      ((1 - Real.exp (-1)) / (1 + Real.exp (-1))) ∧
    (1/4 : ℝ) ≠ 1 / (2 * 1 ^ 3) *
      ((1 - 2 * 1 * 1 * Real.exp (-1) - Real.exp (-1) ^ 2) /
        (1 + Real.exp (-1)) ^ 2) := by
  have hy : 0 < Real.exp (-1) := Real.exp_pos _
  have h1y : (0:ℝ) < 1 + Real.exp (-1) := by linarith
  have hy3 : (1:ℝ)/3 < Real.exp (-1) := by
    rw [Real.exp_neg, one_div]
    exact inv_strictAnti₀ (Real.exp_pos 1)
      (lt_trans Real.exp_one_lt_d9 (by norm_num))
  refine ⟨?_, ?_, ?_⟩
  · rw [EZDiffusion.forward_equations, if_neg one_ne_zero]
    norm_num
  · intro h
    field_simp at h
    linarith
  · intro h
    field_simp at h
    nlinarith [hy3, sq_nonneg (Real.exp (-1))]

/-- C2 amended: for every drift `nu` distinct from 0 and model
attributes `(tau, a, z)`, `forward_equations` returns mean rt
`tau + a / (2 * |nu|)`, variance `a ^ 2 / nu ^ 2 * z * (1 - z)` and
accuracy `1 / (1 + exp (-2 * nu * a * z))`; only the accuracy agrees
with the section 4.1 closed form `1 / (1 + exp (-nu * a))`, and only
when `z = 1/2` (the default); the mean and variance do not follow the
section 4.1 forms. -/
theorem C2_forward_closed_forms_amended (tau a z nu : ℝ) (hnu : nu ≠ 0) :
    EZDiffusion.forward_equations ⟨tau, a, z⟩ nu =
      some (tau + a / (2 * |nu|), a ^ 2 / nu ^ 2 * z * (1 - z),
            1 / (1 + Real.exp (-2 * nu * a * z))) ∧
    (z = 1/2 →
      1 / (1 + Real.exp (-2 * nu * a * z)) =
        1 / (1 + Real.exp (-(nu * a)))) := by
  refine ⟨by rw [EZDiffusion.forward_equations, if_neg hnu], ?_⟩
  rintro rfl
  rw [show (-2 * nu * a * (1/2) : ℝ) = -(nu * a) by ring]

/-- Witness for C2 amended at `(tau, a, z, nu) = (3/10, 1, 1/2, 1)`. -/
theorem C2_forward_closed_forms_witness :
    EZDiffusion.forward_equations ⟨3/10, 1, 1/2⟩ 1 =
      some (3/10 + 1 / (2 * |(1:ℝ)|), 1 ^ 2 / 1 ^ 2 * (1/2) * (1 - 1/2),
            1 / (1 + Real.exp (-2 * 1 * 1 * (1/2)))) ∧
    ((1:ℝ)/2 = 1/2 →
      1 / (1 + Real.exp (-2 * 1 * 1 * (1/2))) =
        1 / (1 + Real.exp (-(1 * 1)))) :=
  C2_forward_closed_forms_amended (3/10) 1 (1/2) 1 (by norm_num)

/-- Unfolding of the iteration loop: starting from any accumulator, the
loop appends exactly one record per draw and adds the number of
successful new records to the counter. -/
theorem run_step_foldl (inv : ℝ → ℝ → ℝ → Except String (ℝ × ℝ × ℝ))
    (draws : List Draw) (rs : List TrialRecord) (c : ℕ) :
    (draws.foldl (run_step inv) (rs, c)).1 =
      rs ++ draws.map (fun d =>
        simulate_and_recover inv d.nu d.alpha d.tau d.R_obs d.M_obs d.V_obs) ∧
    (draws.foldl (run_step inv) (rs, c)).2 =
      c + ((draws.map (fun d =>
        simulate_and_recover inv d.nu d.alpha d.tau d.R_obs d.M_obs d.V_obs)).filter
          TrialRecord.isSuccess).length := by
  induction draws generalizing rs c with
  | nil => simp
  | cons d ds ih =>
    have hstep : run_step inv (rs, c) d =
        (rs ++ [simulate_and_recover inv d.nu d.alpha d.tau d.R_obs d.M_obs d.V_obs],
         c + if (simulate_and_recover inv d.nu d.alpha d.tau d.R_obs d.M_obs
              d.V_obs).isSuccess then 1 else 0) := rfl
    obtain ⟨h1, h2⟩ := ih
      (rs ++ [simulate_and_recover inv d.nu d.alpha d.tau d.R_obs d.M_obs d.V_obs])
      (c + if (simulate_and_recover inv d.nu d.alpha d.tau d.R_obs d.M_obs
           d.V_obs).isSuccess then 1 else 0)
    constructor
    · rw [List.foldl_cons, hstep, h1, List.append_assoc, List.singleton_append,
        List.map_cons]
    · rw [List.foldl_cons, hstep, h2, List.map_cons, List.filter_cons]
      by_cases hs : (simulate_and_recover inv d.nu d.alpha d.tau d.R_obs d.M_obs
          d.V_obs).isSuccess
      · simp only [hs, if_true, List.length_cons]
        omega
      · simp only [hs, if_false, Bool.false_eq_true]
        omega

/-- The inner loop of `run_simulations` produces exactly one record per
draw, and its success counter equals the number of successful records. -/
theorem run_simulations_for_records
    (inv : ℝ → ℝ → ℝ → Except String (ℝ × ℝ × ℝ)) (draws : List Draw) :
    (run_simulations_for inv draws).1 = draws.map (fun d =>
      simulate_and_recover inv d.nu d.alpha d.tau d.R_obs d.M_obs d.V_obs) ∧
    (run_simulations_for inv draws).2 =
      (((run_simulations_for inv draws).1).filter TrialRecord.isSuccess).length := by
  obtain ⟨h1, h2⟩ := run_step_foldl inv draws [] 0
  rw [run_simulations_for]
  constructor
  · rw [h1]
    simp
  · rw [h2, h1]
    simp

/-- C4: a recovery failure in one trial never aborts the loop. The
inner loop returns one record for every attempted iteration (and the
outer loop one result per sample size) whatever the inverse does, and
a trial whose inverse call fails yields the failure record carrying
exactly the true parameters and the failure reason - the `failure`
constructor has no estimate fields at all. -/
theorem C4_trial_failure_never_aborts
    (inv : ℝ → ℝ → ℝ → Except String (ℝ × ℝ × ℝ))
    (drawss : List (List Draw)) (draws : List Draw) :
    ((run_simulations_for inv draws).1).length = draws.length ∧
    (run_simulations inv drawss).length = drawss.length ∧
    (∀ (nu alpha tau R M V : ℝ) (e : String),
      inv R M V = Except.error e →
      simulate_and_recover inv nu alpha tau R M V =
        TrialRecord.failure nu alpha tau e) := by
  refine ⟨?_, ?_, ?_⟩
  · rw [(run_simulations_for_records inv draws).1, List.length_map]
  · rw [run_simulations, List.length_map]
  · intro nu alpha tau R M V e h
    simp [simulate_and_recover, h]

/-- Witness for C4: an inverse that always fails with reason
`NumericDegeneracy`, one sample size, one iteration. -/
theorem C4_trial_failure_witness :
    ((run_simulations_for (fun _ _ _ => Except.error "NumericDegeneracy")
        [⟨1, 1, 3/10, 1/2, 1/2, 1/10⟩]).1).length = 1 ∧
    (run_simulations (fun _ _ _ => Except.error "NumericDegeneracy")
        [[⟨1, 1, 3/10, 1/2, 1/2, 1/10⟩]]).length = 1 ∧
    simulate_and_recover (fun _ _ _ => Except.error "NumericDegeneracy")
        1 1 (3/10) (1/2) (1/2) (1/10) =
      TrialRecord.failure 1 1 (3/10) "NumericDegeneracy" := by
  obtain ⟨h1, h2, h3⟩ := C4_trial_failure_never_aborts
    (fun _ _ _ => Except.error "NumericDegeneracy")
    [[⟨1, 1, 3/10, 1/2, 1/2, 1/10⟩]] [⟨1, 1, 3/10, 1/2, 1/2, 1/10⟩]
  exact ⟨h1, h2, h3 1 1 (3/10) (1/2) (1/2) (1/10) "NumericDegeneracy" rfl⟩

/-- C7: the aggregate means of `analyze_results` for a sample size are
unchanged when the failed records are removed first - they are computed
over the successful records only - and the success counter of
`run_simulations`, whose printed success rate divides it by the number
of attempted iterations, equals the number of successful records. -/
theorem C7_aggregates_successful_only
    (inv : ℝ → ℝ → ℝ → Except String (ℝ × ℝ × ℝ))
    (draws : List Draw) (records : List TrialRecord) :
    analyze_results_for records =
      analyze_results_for (records.filter TrialRecord.isSuccess) ∧
    (run_simulations_for inv draws).2 =
      (((run_simulations_for inv draws).1).filter TrialRecord.isSuccess).length ∧
    success_rate inv draws =
      ((((run_simulations_for inv draws).1).filter
          TrialRecord.isSuccess).length : ℝ) / (draws.length : ℝ) := by
  have hff : (records.filter TrialRecord.isSuccess).filter TrialRecord.isSuccess =
      records.filter TrialRecord.isSuccess := by
    rw [List.filter_filter]
    simp
  refine ⟨?_, (run_simulations_for_records inv draws).2, ?_⟩
  · simp only [analyze_results_for, hff]
  · rw [success_rate, (run_simulations_for_records inv draws).2]

/-- Positivity of the section 4.1 variance numerator: for `u > 0` and
`y = exp (-u)`, `1 - y ^ 2 - 2 * u * y > 0` (equivalent to
`u < sinh u`). -/
theorem variance_numerator_pos (u : ℝ) (hu : 0 < u) :
    0 < 1 - Real.exp (-u) ^ 2 - 2 * u * Real.exp (-u) := by
  have hsinh : u < Real.sinh u := Real.self_lt_sinh_iff.mpr hu
  rw [Real.sinh_eq] at hsinh
  have hy : 0 < Real.exp (-u) := Real.exp_pos _
  have h2 : 2 * u < Real.exp u - Real.exp (-u) := by linarith
  have hmul : Real.exp (-u) * Real.exp u = 1 := by
    rw [← Real.exp_add]
    simp
  nlinarith [mul_lt_mul_of_pos_right h2 hy]

/-- Evaluation of the spec forward operation away from its guard. -/
theorem forward_eval (nu a tau : ℝ) (hnu : nu ≠ 0) (ha : 0 < a) :
    forward nu a tau = some
      (1 / (1 + Real.exp (-(nu * a))),
       tau + a / (2 * nu) *
         ((1 - Real.exp (-(nu * a))) / (1 + Real.exp (-(nu * a)))),
       a / (2 * nu ^ 3) *
         ((1 - 2 * a * nu * Real.exp (-(nu * a)) - Real.exp (-(nu * a)) ^ 2) /
           (1 + Real.exp (-(nu * a))) ^ 2)) := by
  rw [forward, if_neg (by push_neg; exact ⟨hnu, ha⟩)]

/-- Round-trip core: for positive drift and boundary, applying the spec
`recover` to the exact, noise-free output of the spec `forward`
returns the true parameters exactly. -/
theorem recover_forward_exact (nu a tau : ℝ) (hnu : 0 < nu) (ha : 0 < a) :
    ∃ R M V, forward nu a tau = some (R, M, V) ∧
      recover R M V = some (nu, a, tau) := by
  have hu : 0 < nu * a := mul_pos hnu ha
  have hy0 : 0 < Real.exp (-(nu * a)) := Real.exp_pos _
  have hy1 : Real.exp (-(nu * a)) < 1 := Real.exp_lt_one_iff.mpr (by linarith)
  have hP : 0 < 1 - Real.exp (-(nu * a)) ^ 2 -
      2 * (nu * a) * Real.exp (-(nu * a)) := by
    have := variance_numerator_pos (nu * a) hu
    linarith
  refine ⟨_, _, _, forward_eval nu a tau hnu.ne' ha, ?_⟩
  set y := Real.exp (-(nu * a)) with hy_def
  have h1y : (0:ℝ) < 1 + y := by linarith
  have h1yne : (1:ℝ) + y ≠ 0 := ne_of_gt h1y
  have hyne : y ≠ 0 := ne_of_gt hy0
  have hR0 : 0 < 1 / (1 + y) := by positivity
  have hR1 : 1 / (1 + y) < 1 := by
    rw [div_lt_one h1y]
    linarith
  have hRhalf : 1/2 < 1 / (1 + y) := by
    rw [lt_div_iff₀ h1y]
    linarith
  have hclamp : clampAccuracy (1 / (1 + y)) = 1 / (1 + y) := by
    rw [clampAccuracy, if_neg (not_le.mpr hR0), if_neg (not_le.mpr hR1)]
  have hyy : y * Real.exp (nu * a) = 1 := by
    rw [hy_def, ← Real.exp_add]
    simp
  have hfrac : 1 / (1 + y) / (1 - 1 / (1 + y)) = Real.exp (nu * a) := by
    field_simp
    linarith [hyy]
  have hL : Real.log (1 / (1 + y) / (1 - 1 / (1 + y))) = nu * a := by
    rw [hfrac, Real.log_exp]
  have h2 : 0 < 1 - 2 * a * nu * y - y ^ 2 := by nlinarith [hP]
  have hV : 0 < a / (2 * nu ^ 3) * ((1 - 2 * a * nu * y - y ^ 2) / (1 + y) ^ 2) :=
    mul_pos (div_pos ha (by positivity)) (div_pos h2 (by positivity))
  have hXV : nu * a * ((1 / (1 + y)) ^ 2 * (nu * a) - 1 / (1 + y) * (nu * a) +
      1 / (1 + y) - 1 / 2) /
      (a / (2 * nu ^ 3) * ((1 - 2 * a * nu * y - y ^ 2) / (1 + y) ^ 2)) =
      nu ^ 4 := by
    rw [div_eq_iff (ne_of_gt hV)]
    field_simp
    ring
  simp only [recover]
  rw [hclamp, hL, if_neg (not_le.mpr hV), if_neg hu.ne', if_pos hRhalf]
  rw [hXV, one_mul, Real.pow_rpow_inv_natCast hnu.le (by norm_num)]
  rw [mul_div_cancel_left₀ a hnu.ne', ← hy_def]
  simp only [Option.some.injEq, Prod.mk.injEq]
  refine ⟨trivial, trivial, ?_⟩
  ring

/-- C1: for every drift in [1/2, 2], boundary in [1/2, 2] and
non-decision time in [1/10, 1/2], applying the spec `recover` to the
exact, noise-free output of the spec `forward` returns estimates equal
to the true parameters within absolute tolerance 1/1000000 in each
component (the recovery is in fact exact over the reals). -/
theorem C1_round_trip_noise_free (nu a tau : ℝ)
    (h1 : 1/2 ≤ nu) (h2 : nu ≤ 2) (h3 : 1/2 ≤ a) (h4 : a ≤ 2)
    (h5 : 1/10 ≤ tau) (h6 : tau ≤ 1/2) :
    ∃ R M V nu_est a_est tau_est,
      forward nu a tau = some (R, M, V) ∧
      recover R M V = some (nu_est, a_est, tau_est) ∧
      |nu_est - nu| ≤ 1/1000000 ∧ |a_est - a| ≤ 1/1000000 ∧
      |tau_est - tau| ≤ 1/1000000 := by
  obtain ⟨R, M, V, hf, hr⟩ :=
    recover_forward_exact nu a tau (by linarith) (by linarith)
  exact ⟨R, M, V, nu, a, tau, hf, hr, by norm_num, by norm_num, by norm_num⟩

/-- Witness for C1 at `(nu, a, tau) = (1, 1, 3/10)`, the concrete
scenario of spec section 8. -/
theorem C1_round_trip_witness :
    ∃ R M V nu_est a_est tau_est,
      forward 1 1 (3/10) = some (R, M, V) ∧
      recover R M V = some (nu_est, a_est, tau_est) ∧
      |nu_est - 1| ≤ 1/1000000 ∧ |a_est - 1| ≤ 1/1000000 ∧
      |tau_est - 3/10| ≤ 1/1000000 :=
  C1_round_trip_noise_free 1 1 (3/10) (by norm_num) (by norm_num)
    (by norm_num) (by norm_num) (by norm_num) (by norm_num)
